import Mathlib

/-!
Verification development for the Urban Lens repository (Azercosmos hackathon):
a PostGIS schema (`scripts/01_create_schema.sql`) and a React/Leaflet frontend
(`frontend/src/components/{Map,Sidebar,FeaturePanel}.tsx`).  The definitions
below embed, as executable Lean functions, the parts of the source that the
stated properties are about: JSONB values and the `||` merge operator, the
table column constraints of `urban.infrastructure` and `urban.buildings`, the
`urban.stac_items` view, the frontend filter state and its toggles, the map
loaders' per-feature rendering, the feature-panel type detection, and the
operator portal's file-selection and import-result handling.
-/

namespace UrbanLens

/-- JSON values, as they appear in `jsonb` columns and in GeoJSON documents
exchanged with the frontend.  `null` models both SQL NULL inside
`jsonb_build_object` and JSON null; JS `undefined` is modelled by the absence
of a key (an `Option.none` lookup). -/
inductive JVal : Type where
  | null : JVal
  | bool : Bool → JVal
  | num : Int → JVal
  | str : String → JVal
  | arr : List JVal → JVal
  | obj : List (String × JVal) → JVal

/-- A JSON object is a list of key/value pairs; lookup takes the first match,
mirroring property access. -/
abbrev JObj := List (String × JVal)

/-- Key lookup on a JSON object (JS property access / jsonb `->`). -/
def jlookup (o : JObj) (k : String) : Option JVal :=
  List.lookup k o

/-- PostgreSQL `jsonb || jsonb` concatenation: the result has the union of the
keys, and on a duplicate key the RIGHT operand's value wins. -/
def jsonbConcat (a b : JObj) : JObj :=
  a.filter (fun p => !(b.any (fun q => q.1 == p.1))) ++ b

theorem jlookup_isSome_of_any (b : JObj) (k : String)
    (h : b.any (fun q => q.1 == k) = true) : (jlookup b k).isSome = true := by
  induction b with
  | nil => simp [List.any] at h
  | cons p bs ih =>
      simp only [List.any_cons, Bool.or_eq_true] at h
      cases hk : p.1 == k with
      | true =>
          have : k == p.1 := by
            have := (beq_iff_eq (a := p.1) (b := k)).mp hk
            simp [this]
          simp [jlookup, List.lookup, this]
      | false =>
          have hb : bs.any (fun q => q.1 == k) = true := by
            rcases h with h | h
            · rw [hk] at h; exact absurd h (by simp)
            · exact h
          have hk' : (k == p.1) = false := by
            cases hkk : k == p.1 with
            | true =>
                have := (beq_iff_eq (a := k) (b := p.1)).mp hkk
                rw [this.symm] at hk
                simp at hk
            | false => rfl
          simpa [jlookup, List.lookup, hk'] using ih hb

theorem jlookup_none_of_not_any (b : JObj) (k : String)
    (h : b.any (fun q => q.1 == k) = false) : jlookup b k = none := by
  induction b with
  | nil => rfl
  | cons p bs ih =>
      simp only [List.any_cons, Bool.or_eq_false_iff] at h
      have hk' : (k == p.1) = false := by
        cases hkk : k == p.1 with
        | true =>
            have := (beq_iff_eq (a := k) (b := p.1)).mp hkk
            rw [← this] at h
            simp at h
        | false => rfl
      simpa [jlookup, List.lookup, hk'] using ih h.2

/-- Lookup through a jsonb concatenation prefers the right operand: the result
is the right operand's value when the key is present there, and otherwise the
left operand's. -/
theorem jlookup_jsonbConcat (a b : JObj) (k : String) :
    jlookup (jsonbConcat a b) k = (jlookup b k).or (jlookup a k) := by
  induction a with
  | nil =>
      show jlookup b k = (jlookup b k).or (jlookup [] k)
      cases hb : jlookup b k <;> rfl
  | cons p as ih =>
      cases hp : b.any (fun q => q.1 == p.1) with
      | true =>
          have hcat : jsonbConcat (p :: as) b = jsonbConcat as b := by
            simp [jsonbConcat, List.filter_cons, hp]
          rw [hcat, ih]
          cases hkp : k == p.1 with
          | true =>
              have hkeq : k = p.1 := (beq_iff_eq (a := k) (b := p.1)).mp hkp
              have hbk : b.any (fun q => q.1 == k) = true := by
                rw [hkeq]; exact hp
              have hs := jlookup_isSome_of_any b k hbk
              obtain ⟨v, hv⟩ := Option.isSome_iff_exists.mp hs
              rw [hv]
              rfl
          | false =>
              have hskip : jlookup (p :: as) k = jlookup as k := by
                simp [jlookup, List.lookup, hkp]
              rw [hskip]
      | false =>
          have hcat : jsonbConcat (p :: as) b = p :: jsonbConcat as b := by
            simp [jsonbConcat, List.filter_cons, hp]
          rw [hcat]
          cases hkp : k == p.1 with
          | true =>
              have hkeq : k = p.1 := (beq_iff_eq (a := k) (b := p.1)).mp hkp
              have hbk : b.any (fun q => q.1 == k) = false := by
                rw [hkeq]; exact hp
              have hbn := jlookup_none_of_not_any b k hbk
              have hL : jlookup (p :: jsonbConcat as b) k = some p.2 := by
                simp [jlookup, List.lookup, hkp]
              have hR : jlookup (p :: as) k = some p.2 := by
                simp [jlookup, List.lookup, hkp]
              rw [hL, hR, hbn]
              rfl
          | false =>
              have h1 : jlookup (p :: jsonbConcat as b) k
                  = jlookup (jsonbConcat as b) k := by
                simp [jlookup, List.lookup, hkp]
              have h2 : jlookup (p :: as) k = jlookup as k := by
                simp [jlookup, List.lookup, hkp]
              rw [h1, h2, ih]

/-! ## PostGIS schema (`scripts/01_create_schema.sql`)

Tables are embedded as lists of rows.  An INSERT is a payload whose `Option`
fields model omitted columns (`none` = not supplied, so column defaults
apply); it is checked against the column constraints the DDL declares
(NOT NULL, UNIQUE, VARCHAR length, the geometry typmod's type and SRID, and
foreign-key existence) and appended on success.  `created_at DEFAULT NOW()`
takes the clock as an explicit argument.  The view's `bbox_*` columns
(`ST_XMin` …) are not referenced by any stated property and are omitted. -/

/-- Geometry type tags (PostGIS typmod names / GeoJSON `type`). -/
inductive PGGeomType : Type where
  | point
  | lineString
  | polygon
  | multiPoint
  | multiLineString
  | multiPolygon
  | geometryCollection
deriving DecidableEq

/-- The GeoJSON `type` name of a geometry type, as `ST_AsGeoJSON` emits it. -/
def geomTypeName : PGGeomType → String
  | .point => "Point"
  | .lineString => "LineString"
  | .polygon => "Polygon"
  | .multiPoint => "MultiPoint"
  | .multiLineString => "MultiLineString"
  | .multiPolygon => "MultiPolygon"
  | .geometryCollection => "GeometryCollection"

/-- A PostGIS geometry value: type tag, SRID, and its raw coordinate
structure (the nested arrays `ST_AsGeoJSON` would emit). -/
structure PGGeometry where
  gtype : PGGeomType
  srid : Nat
  coordinates : JVal

/-- JSON object key and string-literal constants used across the embedding. -/
def kType : String := "type"
def kCoordinates : String := "coordinates"
def kDatetime : String := "datetime"
def kOperator : String := "operator"
def kOperatorCode : String := "operator_code"
def kOperatorColor : String := "operator_color"
def kInfrastructureType : String := "infrastructure_type"
def kTypeCode : String := "type_code"
def kCategory : String := "category"
def kStatus : String := "status"
def kDepthMeters : String := "depth_meters"
def kMaterial : String := "material"
def kBuildingType : String := "building_type"
def kFloors : String := "floors"
def kYearBuilt : String := "year_built"
def kName : String := "name"
def kRel : String := "rel"
def kHref : String := "href"

/-- `ST_AsGeoJSON(geometry)::jsonb`: the GeoJSON object for a stored
geometry. -/
def stAsGeoJSON (g : PGGeometry) : JVal :=
  .obj [(kType, .str (geomTypeName g.gtype)), (kCoordinates, g.coordinates)]

/-- `VARCHAR(n)` accepts strings of at most n characters. -/
def varcharFits (n : Nat) (s : String) : Bool :=
  s.length ≤ n

/-- The UNIQUE constraint on `stac_id`: all identifiers pairwise distinct. -/
def distinctIds : List String → Bool
  | [] => true
  | x :: xs => xs.all (fun y => y != x) && distinctIds xs

/-- A row of `urban.operators` (reference data; columns from the DDL). -/
structure OperatorRow where
  id : String
  code : String
  name : String
  name_az : Option String
  category : String
  color : String
  icon : Option String
  contact_info : Option JObj

/-- A row of `urban.infrastructure_types`. -/
structure InfraTypeRow where
  id : String
  code : String
  name : String
  name_az : Option String
  category : String
  properties_schema : Option JObj

/-- A persisted row of `urban.infrastructure`.  `stac_id` and `geometry` are
non-optional because their columns are NOT NULL; `status` is the stored
string (DEFAULT 'active' applied at insert). -/
structure InfraRow where
  stac_id : String
  type_id : Option String
  operator_id : Option String
  geometry : PGGeometry
  properties : JObj
  status : String
  installed_date : Option String
  depth_meters : Option Int
  material : Option String
  capacity : Option String
  created_at : String

/-- An INSERT payload for `urban.infrastructure`; `none` = column omitted. -/
structure InfraInsert where
  stac_id : Option String
  type_id : Option String
  operator_id : Option String
  geometry : Option PGGeometry
  properties : Option JObj
  status : Option String
  installed_date : Option String
  depth_meters : Option Int
  material : Option String
  capacity : Option String

/-- The DDL's default for the `status` column. -/
def statusDefault : String := "active"

/-- The constraint checks the `urban.infrastructure` DDL imposes on an
INSERT: `stac_id VARCHAR(255) UNIQUE NOT NULL`, `geometry
GEOMETRY(GEOMETRY, 4326) NOT NULL` (any geometry type, SRID fixed),
foreign keys to types/operators, and VARCHAR widths.  Note the DDL puts the
four intended `status` values only in a comment: the column itself is a bare
`VARCHAR(50) DEFAULT 'active'` with no CHECK constraint. -/
def infraInsertOk (ops : List OperatorRow) (tys : List InfraTypeRow)
    (tbl : List InfraRow) (r : InfraInsert) : Bool :=
  (match r.stac_id with
   | some s => varcharFits 255 s && tbl.all (fun row => row.stac_id != s)
   | none => false)
  && (match r.geometry with
      | some g => g.srid == 4326
      | none => false)
  && (match r.type_id with
      | some t => tys.any (fun ty => ty.id == t)
      | none => true)
  && (match r.operator_id with
      | some o => ops.any (fun op => op.id == o)
      | none => true)
  && (match r.status with
      | some s => varcharFits 50 s
      | none => true)
  && (match r.material with
      | some s => varcharFits 100 s
      | none => true)
  && (match r.capacity with
      | some s => varcharFits 100 s
      | none => true)

/-- The stored row an accepted INSERT produces (defaults applied). -/
def mkInfraRow (now : String) (r : InfraInsert) : InfraRow :=
  { stac_id := r.stac_id.getD ""
    type_id := r.type_id
    operator_id := r.operator_id
    geometry := r.geometry.getD ⟨.point, 4326, .null⟩
    properties := r.properties.getD []
    status := r.status.getD statusDefault
    installed_date := r.installed_date
    depth_meters := r.depth_meters
    material := r.material
    capacity := r.capacity
    created_at := now }

/-- INSERT into `urban.infrastructure`: checked, then appended. -/
def insertInfra (ops : List OperatorRow) (tys : List InfraTypeRow)
    (tbl : List InfraRow) (now : String) (r : InfraInsert) :
    Option (List InfraRow) :=
  if infraInsertOk ops tys tbl r then some (tbl ++ [mkInfraRow now r])
  else none

/-- An UPDATE patch for `urban.infrastructure`: `none` = column not SET.
Setting a nullable column to NULL is not modelled; it affects no stated
property (the NOT NULL columns `stac_id`/`geometry` cannot be nulled and
carry plain values here). -/
structure InfraPatch where
  stac_id : Option String
  type_id : Option String
  operator_id : Option String
  geometry : Option PGGeometry
  properties : Option JObj
  status : Option String
  installed_date : Option String
  depth_meters : Option Int
  material : Option String
  capacity : Option String

/-- Applying a patch to one row; the `tr_infrastructure_updated` trigger
stamps nothing observed by the stated properties and is omitted. -/
def applyInfraPatch (p : InfraPatch) (row : InfraRow) : InfraRow :=
  { row with
    stac_id := p.stac_id.getD row.stac_id
    type_id := p.type_id.orElse (fun _ => row.type_id)
    operator_id := p.operator_id.orElse (fun _ => row.operator_id)
    geometry := p.geometry.getD row.geometry
    properties := p.properties.getD row.properties
    status := p.status.getD row.status
    installed_date := p.installed_date.orElse (fun _ => row.installed_date)
    depth_meters := p.depth_meters.orElse (fun _ => row.depth_meters)
    material := p.material.orElse (fun _ => row.material)
    capacity := p.capacity.orElse (fun _ => row.capacity)
    created_at := row.created_at }

/-- The per-value checks an UPDATE's SET list must pass (VARCHAR widths,
geometry typmod `GEOMETRY(GEOMETRY, 4326)`, foreign keys). -/
def infraPatchOk (ops : List OperatorRow) (tys : List InfraTypeRow)
    (p : InfraPatch) : Bool :=
  (match p.stac_id with
   | some s => varcharFits 255 s
   | none => true)
  && (match p.geometry with
      | some g => g.srid == 4326
      | none => true)
  && (match p.type_id with
      | some t => tys.any (fun ty => ty.id == t)
      | none => true)
  && (match p.operator_id with
      | some o => ops.any (fun op => op.id == o)
      | none => true)
  && (match p.status with
      | some s => varcharFits 50 s
      | none => true)
  && (match p.material with
      | some s => varcharFits 100 s
      | none => true)
  && (match p.capacity with
      | some s => varcharFits 100 s
      | none => true)

/-- The table as the UPDATE's SET list would leave it. -/
def updatedInfraTable (tbl : List InfraRow) (tid : String) (p : InfraPatch) :
    List InfraRow :=
  tbl.map (fun row =>
    if row.stac_id == tid then applyInfraPatch p row else row)

/-- `UPDATE urban.infrastructure SET … WHERE stac_id = tid`: the patch is
applied to matching rows, and the resulting table must still satisfy the
UNIQUE constraint on `stac_id`, else the statement fails. -/
def updateInfra (ops : List OperatorRow) (tys : List InfraTypeRow)
    (tbl : List InfraRow) (tid : String) (p : InfraPatch) :
    Option (List InfraRow) :=
  if infraPatchOk ops tys p
      && distinctIds ((updatedInfraTable tbl tid p).map (fun row => row.stac_id))
  then some (updatedInfraTable tbl tid p)
  else none

/-- A persisted row of `urban.buildings`: `stac_id VARCHAR(255) UNIQUE NOT
NULL`, `geometry GEOMETRY(POLYGON, 4326) NOT NULL`, the rest nullable. -/
structure BuildingRow where
  stac_id : String
  osm_id : Option Int
  geometry : PGGeometry
  operator_id : Option String
  name : Option String
  name_az : Option String
  building_type : Option String
  floors : Option Int
  year_built : Option Int
  address : Option JObj
  properties : JObj
  created_at : String

/-- An INSERT payload for `urban.buildings`. -/
structure BuildingInsert where
  stac_id : Option String
  osm_id : Option Int
  geometry : Option PGGeometry
  operator_id : Option String
  name : Option String
  name_az : Option String
  building_type : Option String
  floors : Option Int
  year_built : Option Int
  address : Option JObj
  properties : Option JObj

/-- The `urban.buildings` DDL checks: unlike infrastructure, the geometry
typmod is `GEOMETRY(POLYGON, 4326)`, so only Polygon geometries in SRID 4326
are accepted. -/
def buildingInsertOk (ops : List OperatorRow) (tbl : List BuildingRow)
    (r : BuildingInsert) : Bool :=
  (match r.stac_id with
   | some s => varcharFits 255 s && tbl.all (fun row => row.stac_id != s)
   | none => false)
  && (match r.geometry with
      | some g => g.gtype == PGGeomType.polygon && g.srid == 4326
      | none => false)
  && (match r.operator_id with
      | some o => ops.any (fun op => op.id == o)
      | none => true)
  && (match r.name with
      | some s => varcharFits 255 s
      | none => true)
  && (match r.name_az with
      | some s => varcharFits 255 s
      | none => true)
  && (match r.building_type with
      | some s => varcharFits 100 s
      | none => true)

/-- The stored building row an accepted INSERT produces. -/
def mkBuildingRow (now : String) (r : BuildingInsert) : BuildingRow :=
  { stac_id := r.stac_id.getD ""
    osm_id := r.osm_id
    geometry := r.geometry.getD ⟨.polygon, 4326, .null⟩
    operator_id := r.operator_id
    name := r.name
    name_az := r.name_az
    building_type := r.building_type
    floors := r.floors
    year_built := r.year_built
    address := r.address
    properties := r.properties.getD []
    created_at := now }

/-- INSERT into `urban.buildings`. -/
def insertBuilding (ops : List OperatorRow) (tbl : List BuildingRow)
    (now : String) (r : BuildingInsert) : Option (List BuildingRow) :=
  if buildingInsertOk ops tbl r then some (tbl ++ [mkBuildingRow now r])
  else none

/-- An UPDATE patch for `urban.buildings`. -/
structure BuildingPatch where
  stac_id : Option String
  geometry : Option PGGeometry
  operator_id : Option String
  name : Option String
  building_type : Option String
  floors : Option Int
  year_built : Option Int
  properties : Option JObj

def applyBuildingPatch (p : BuildingPatch) (row : BuildingRow) : BuildingRow :=
  { row with
    stac_id := p.stac_id.getD row.stac_id
    geometry := p.geometry.getD row.geometry
    operator_id := p.operator_id.orElse (fun _ => row.operator_id)
    name := p.name.orElse (fun _ => row.name)
    building_type := p.building_type.orElse (fun _ => row.building_type)
    floors := p.floors.orElse (fun _ => row.floors)
    year_built := p.year_built.orElse (fun _ => row.year_built)
    properties := p.properties.getD row.properties }

def buildingPatchOk (ops : List OperatorRow) (p : BuildingPatch) : Bool :=
  (match p.stac_id with
   | some s => varcharFits 255 s
   | none => true)
  && (match p.geometry with
      | some g => g.gtype == PGGeomType.polygon && g.srid == 4326
      | none => true)
  && (match p.operator_id with
      | some o => ops.any (fun op => op.id == o)
      | none => true)
  && (match p.name with
      | some s => varcharFits 255 s
      | none => true)
  && (match p.building_type with
      | some s => varcharFits 100 s
      | none => true)

/-- The buildings table as the UPDATE's SET list would leave it. -/
def updatedBuildingTable (tbl : List BuildingRow) (tid : String)
    (p : BuildingPatch) : List BuildingRow :=
  tbl.map (fun row =>
    if row.stac_id == tid then applyBuildingPatch p row else row)

/-- `UPDATE urban.buildings SET … WHERE stac_id = tid`. -/
def updateBuilding (ops : List OperatorRow) (tbl : List BuildingRow)
    (tid : String) (p : BuildingPatch) : Option (List BuildingRow) :=
  if buildingPatchOk ops p
      && distinctIds ((updatedBuildingTable tbl tid p).map (fun row => row.stac_id))
  then some (updatedBuildingTable tbl tid p)
  else none

/-- C5's persisted-feature invariant for `urban.infrastructure`: every row
has a (non-null) `stac_id` unique within the table and a (non-null) geometry
in SRID 4326. -/
def infraInv (tbl : List InfraRow) : Prop :=
  distinctIds (tbl.map (fun r => r.stac_id)) = true
  ∧ ∀ r ∈ tbl, r.geometry.srid = 4326

/-- C5's persisted-feature invariant for `urban.buildings`. -/
def buildingInv (tbl : List BuildingRow) : Prop :=
  distinctIds (tbl.map (fun r => r.stac_id)) = true
  ∧ ∀ r ∈ tbl, r.geometry.srid = 4326

/-- C6's invariant: every persisted building geometry is a Polygon in SRID
4326 (the typmod `GEOMETRY(POLYGON, 4326)`). -/
def buildingGeomInv (tbl : List BuildingRow) : Prop :=
  ∀ r ∈ tbl, r.geometry.gtype = PGGeomType.polygon ∧ r.geometry.srid = 4326

/-! ## The `urban.stac_items` view -/

/-- SQL string value or NULL inside `jsonb_build_object`. -/
def optStr : Option String → JVal
  | some s => .str s
  | none => .null

/-- SQL numeric value or NULL inside `jsonb_build_object`. -/
def optNum : Option Int → JVal
  | some n => .num n
  | none => .null

/-- `LEFT JOIN urban.operators o ON i.operator_id = o.id`. -/
def joinOperator (ops : List OperatorRow) (oid : Option String) :
    Option OperatorRow :=
  oid.bind (fun x => ops.find? (fun op => op.id == x))

/-- `LEFT JOIN urban.infrastructure_types t ON i.type_id = t.id`. -/
def joinInfraType (tys : List InfraTypeRow) (tid : Option String) :
    Option InfraTypeRow :=
  tid.bind (fun x => tys.find? (fun ty => ty.id == x))

/-- A row of the `urban.stac_items` view (bbox columns omitted, see above). -/
structure StacItem where
  id : String
  type : String
  geometry : JVal
  properties : JObj
  collection : List String
  links : List JVal

def litFeature : String := "Feature"
def litInfrastructure : String := "infrastructure"
def litBuildings : String := "buildings"
def litSelf : String := "self"
def litCollection : String := "collection"
def itemsHrefBase : String := "/api/stac/items/"
def infraCollectionHref : String := "/api/stac/collections/infrastructure"
def buildingsCollectionHref : String := "/api/stac/collections/buildings"

/-- The `jsonb_build_object(…)` of the view's infrastructure branch: the
fixed keys built from the row and its joined operator/type (NULL for a
missed LEFT JOIN). -/
def infraBaseProps (i : InfraRow) (o : Option OperatorRow)
    (t : Option InfraTypeRow) : JObj :=
  [ (kDatetime, .str i.created_at),
    (kOperator, optStr (o.map (fun x => x.name))),
    (kOperatorCode, optStr (o.map (fun x => x.code))),
    (kOperatorColor, optStr (o.map (fun x => x.color))),
    (kInfrastructureType, optStr (t.map (fun x => x.name))),
    (kTypeCode, optStr (t.map (fun x => x.code))),
    (kCategory, optStr (t.map (fun x => x.category))),
    (kStatus, .str i.status),
    (kDepthMeters, optNum i.depth_meters),
    (kMaterial, optStr i.material) ]

/-- The infrastructure branch of `urban.stac_items`: geometry re-encoded by
`ST_AsGeoJSON`, properties `jsonb_build_object(…) || i.properties`. -/
def stacItemInfra (ops : List OperatorRow) (tys : List InfraTypeRow)
    (i : InfraRow) : StacItem :=
  let o := joinOperator ops i.operator_id
  let t := joinInfraType tys i.type_id
  { id := i.stac_id
    type := litFeature
    geometry := stAsGeoJSON i.geometry
    properties := jsonbConcat (infraBaseProps i o t) i.properties
    collection := [litInfrastructure]
    links :=
      [ .obj [(kRel, .str litSelf),
              (kHref, .str (itemsHrefBase ++ i.stac_id))],
        .obj [(kRel, .str litCollection),
              (kHref, .str infraCollectionHref)] ] }

/-- The `jsonb_build_object(…)` of the view's buildings branch. -/
def buildingBaseProps (b : BuildingRow) (o : Option OperatorRow) : JObj :=
  [ (kDatetime, .str b.created_at),
    (kOperator, optStr (o.map (fun x => x.name))),
    (kOperatorCode, optStr (o.map (fun x => x.code))),
    (kOperatorColor, optStr (o.map (fun x => x.color))),
    (kBuildingType, optStr b.building_type),
    (kFloors, optNum b.floors),
    (kYearBuilt, optNum b.year_built),
    (kName, optStr b.name) ]

/-- The buildings branch of `urban.stac_items`. -/
def stacItemBuilding (ops : List OperatorRow) (b : BuildingRow) : StacItem :=
  let o := joinOperator ops b.operator_id
  { id := b.stac_id
    type := litFeature
    geometry := stAsGeoJSON b.geometry
    properties := jsonbConcat (buildingBaseProps b o) b.properties
    collection := [litBuildings]
    links :=
      [ .obj [(kRel, .str litSelf),
              (kHref, .str (itemsHrefBase ++ b.stac_id))],
        .obj [(kRel, .str litCollection),
              (kHref, .str buildingsCollectionHref)] ] }

/-! ## Frontend: sidebar filter state (`Sidebar.tsx`, `App.tsx`) -/

/-- The `FilterState` the sidebar edits and the map consumes. -/
structure FilterState where
  operators : List String
  categories : List String
  showInfrastructure : Bool
  showBuildings : Bool
deriving DecidableEq

/-- The list edit both sidebar toggles perform: remove the code if present
(JS `filter(o => o !== code)`), else append it. -/
def toggleList (code : String) (l : List String) : List String :=
  if l.contains code then l.filter (fun o => o != code)
  else l ++ [code]

/-- `toggleOperator` (Sidebar.tsx): edits only the `operators` field. -/
def toggleOperator (code : String) (prev : FilterState) : FilterState :=
  { prev with operators := toggleList code prev.operators }

/-- `toggleCategory` (Sidebar.tsx): edits only the `categories` field. -/
def toggleCategory (code : String) (prev : FilterState) : FilterState :=
  { prev with categories := toggleList code prev.categories }

/-- `clearFilters` (Sidebar.tsx); also the initial state in App.tsx. -/
def clearFilters : FilterState :=
  { operators := []
    categories := []
    showInfrastructure := true
    showBuildings := true }

/-! ## Frontend: map loaders (`Map.tsx`) -/

def litLineString : String := "LineString"
def litPoint : String := "Point"
def litPolygon : String := "Polygon"

/-- A GeoJSON geometry as the loaders see it: the `type` string and the raw
`coordinates` array (`none` models the falsy values caught by the
`!geom?.coordinates` guard). -/
structure RawGeom where
  gtype : String
  coordinates : Option (List JVal)

/-- A GeoJSON feature as fetched: `properties` may be null/absent. -/
structure GFeature where
  id : Option JVal
  properties : Option JObj
  geometry : Option RawGeom

/-- The query string `loadInfrastructure` builds: always `limit=1000`, plus
`category`/`operator` exactly when that selection has exactly one entry. -/
def infraQueryParams (f : FilterState) : List (String × String) :=
  [("limit", "1000")]
    ++ (if f.categories.length == 1 then [(kCategory, f.categories.headD "")]
        else [])
    ++ (if f.operators.length == 1 then [(kOperator, f.operators.headD "")]
        else [])

/-- JS `selected.includes(feature.properties?.key)`: true exactly when the
property is present, a string, and among the selected codes (`includes` of
`undefined` or of a non-string value in a string array is false). -/
def propStrMem (sel : List String) (props : Option JObj) (k : String) : Bool :=
  match props with
  | none => false
  | some p =>
      match jlookup p k with
      | some (.str s) => sel.contains s
      | _ => false

/-- The operator guard of `loadInfrastructure`: the feature is dropped iff
more than one operator is selected and its `operator_code` is not among
them. -/
def infraOperatorPass (f : FilterState) (props : Option JObj) : Bool :=
  !(decide (f.operators.length > 1) && !(propStrMem f.operators props kOperatorCode))

/-- The category guard of `loadInfrastructure`. -/
def infraCategoryPass (f : FilterState) (props : Option JObj) : Bool :=
  !(decide (f.categories.length > 1) && !(propStrMem f.categories props kCategory))

/-- A fetched infrastructure feature survives the client-side re-filtering
iff both guards pass. -/
def infraClientPass (f : FilterState) (props : Option JObj) : Bool :=
  infraOperatorPass f props && infraCategoryPass f props

/-- The operator guard of `loadBuildings` (applied whenever any operator is
selected). -/
def buildingOperatorPass (f : FilterState) (props : Option JObj) : Bool :=
  !(decide (f.operators.length > 0) && !(propStrMem f.operators props kOperatorCode))

/-- A JSON number (anything else is NaN to Leaflet). -/
def jnum : JVal → Option Int
  | .num n => some n
  | _ => none

/-- `L.latLng(coords[1], coords[0])`: defined exactly when both indices
exist and are numeric; Leaflet throws on NaN, which the loaders' `try/catch`
turns into a silent skip. -/
def latLngOfPos (coords : List JVal) : Option (Int × Int) :=
  match (coords.get? 1).bind jnum, (coords.get? 0).bind jnum with
  | some lat, some lng => some (lat, lng)
  | _, _ => none

/-- `L.latLng(c[1], c[0])` for one coordinate entry `c` of a line or ring. -/
def latLngOfEntry (c : JVal) : Option (Int × Int) :=
  match c with
  | .arr xs => latLngOfPos xs
  | _ => none

/-- The Leaflet layer a feature's geometry produces. -/
inductive Rendered : Type where
  | polyline (pts : List (Int × Int))
  | circleMarker (center : Int × Int)
  | polygon (pts : List (Int × Int))

/-- JS `coords.map(c => L.latLng(c[1], c[0]))` inside the loaders'
`try` block: the whole map fails (throws, so the feature is skipped) as soon
as one entry does. -/
def mapLatLng : List JVal → Option (List (Int × Int))
  | [] => some []
  | c :: cs =>
      match latLngOfEntry c, mapLatLng cs with
      | some p, some ps => some (p :: ps)
      | _, _ => none

/-- JS `geom.coordinates[0]` when it is an array (otherwise its `.length` is
undefined and the `>= 4` test fails). -/
def ringOf (coords : List JVal) : Option (List JVal) :=
  match coords.get? 0 with
  | some (.arr ring) => some ring
  | _ => none

/-- `geom.coordinates[0]?.length` as compared by `>= 4`. -/
def ringLen (coords : List JVal) : Nat :=
  match ringOf coords with
  | some ring => ring.length
  | none => 0

/-- The per-feature geometry handling of `loadInfrastructure` (Map.tsx
175–219): `none` is a silent skip, by an explicit guard or by the
surrounding `try/catch`. -/
def renderInfraGeom (geometry : Option RawGeom) : Option Rendered :=
  match geometry with
  | none => none
  | some g =>
      match g.coordinates with
      | none => none
      | some coords =>
          if g.gtype = litLineString ∧ coords.length ≥ 2 then
            (mapLatLng coords).map Rendered.polyline
          else if g.gtype = litPoint ∧ coords.length ≥ 2 then
            (latLngOfPos coords).map Rendered.circleMarker
          else
            none

/-- The per-feature geometry handling of `loadBuildings` (Map.tsx
235–273). -/
def renderBuildingGeom (geometry : Option RawGeom) : Option Rendered :=
  match geometry with
  | none => none
  | some g =>
      match g.coordinates with
      | none => none
      | some coords =>
          if g.gtype = litPolygon ∧ ringLen coords ≥ 4 then
            (mapLatLng ((ringOf coords).getD [])).map Rendered.polygon
          else if g.gtype = litPoint ∧ coords.length ≥ 2 then
            (latLngOfPos coords).map Rendered.circleMarker
          else
            none

/-- A coordinate entry Leaflet's `latLng` accepts (an array whose first two
slots are numbers). -/
def posOk (c : JVal) : Bool :=
  (latLngOfEntry c).isSome

/-- Coordinate data in the shape the server emits (`ST_AsGeoJSON` output):
Point coordinates form an acceptable position, LineString entries and the
entries of every Polygon ring are acceptable positions.  Other geometry
types are not rendered, so their shape is unconstrained. -/
def serverGeomOk (g : RawGeom) : Bool :=
  match g.coordinates with
  | none => true
  | some coords =>
      if g.gtype = litPoint then (latLngOfPos coords).isSome
      else if g.gtype = litLineString then coords.all posOk
      else if g.gtype = litPolygon then
        coords.all (fun r =>
          match r with
          | .arr ps => ps.all posOk
          | _ => false)
      else true

/-- `STATUS_CONFIG` keys in Map.tsx — note `inactive`, a status outside the
schema comment's four values. -/
def mapStatusConfigKeys : List String := ["active", "inactive", "maintenance"]

/-! ## Frontend: feature panel (`FeaturePanel.tsx`) -/

/-- `const props = feature.properties || {}`. -/
def panelProps (f : GFeature) : JObj :=
  f.properties.getD []

/-- `const isBuilding = props.building_type !== undefined`. -/
def isBuilding (f : GFeature) : Bool :=
  (jlookup (panelProps f) kBuildingType).isSome

/-- The collection tag the panel displays:
`{isBuilding ? 'buildings' : 'infrastructure'}`. -/
def detectedTypeLabel (f : GFeature) : String :=
  if isBuilding f then litBuildings else litInfrastructure

/-- `statusText` (FeaturePanel.tsx): the Azerbaijani label of a status, with
the raw status string as fallback. -/
def statusText (status : String) : String :=
  if status == "active" then "Aktiv"
  else if status == "maintenance" then "Təmirdə"
  else if status == "planned" then "Planlaşdırılıb"
  else if status == "decommissioned" then "İstifadədən çıxarılıb"
  else status

/-- The four status values the schema's DDL comment and the spec name. -/
def statusEnumValues : List String :=
  ["active", "maintenance", "planned", "decommissioned"]

/-! ## Frontend: operator portal (`FeaturePanel.tsx`, second component) -/

/-- The `ImportResult` payload of the import endpoint. -/
structure ImportResult where
  total : Nat
  imported : Nat
  errors : Nat
  message : String
  first_error : Option String
  detected_type : Option String
deriving DecidableEq

/-- The portal state the file-selection handler touches. -/
structure PortalState where
  selectedFile : Option String
  importResult : Option ImportResult
deriving DecidableEq

def geojsonExt : String := ".geojson"
def jsonExt : String := ".json"
def rejectMessage : String := "Yalnız GeoJSON faylları qəbul edilir"

/-- JS `String.prototype.endsWith`, on the characters of the strings. -/
def strEndsWith (s suffix : String) : Bool :=
  suffix.data.isSuffixOf s.data

/-- The acceptance test of `handleFileSelect`:
`file.name.endsWith('.geojson') || file.name.endsWith('.json')`. -/
def acceptedFileName (name : String) : Bool :=
  strEndsWith name geojsonExt || strEndsWith name jsonExt

/-- `handleFileSelect` (FeaturePanel.tsx 248–255): an accepted file becomes
the selection (clearing any previous result); any other non-null file only
sets the error result; a null file changes nothing. -/
def handleFileSelect (file : Option String) (s : PortalState) : PortalState :=
  match file with
  | some name =>
      if acceptedFileName name then
        { selectedFile := some name, importResult := none }
      else
        { s with importResult := some ⟨0, 0, 1, rejectMessage, none, none⟩ }
  | none => s

/-- `handleImport` uploads exactly `selectedFile` (and returns immediately
when it is null): the file a state would send to the server. -/
def uploadCandidate (s : PortalState) : Option String :=
  s.selectedFile

/-- Only file names accepted by `handleFileSelect` can be selected. -/
def selectionInvariant (s : PortalState) : Prop :=
  ∀ name, s.selectedFile = some name → acceptedFileName name = true

/-! ## Import pipeline (backend, modelled from the spec) -/

/-- Modelled from the spec: the FastAPI backend implementing
`/api/operator/import/{id}` is not under `src/`.  A feature of an uploaded
GeoJSON file, reduced to what the spec's validation rule inspects: its
geometry type and whether its coordinate array is well-formed
(spec §4.1: "reject features whose geometry type does not match the table's
expected geometry family (point/line for infrastructure; polygon for
buildings); reject malformed coordinate arrays"). -/
structure ImportFeature where
  geometryType : Option String
  coordinatesWellFormed : Bool
  properties : JObj

/-- Modelled from the spec: the expected geometry family per detected type —
point/line for infrastructure, polygon for buildings. -/
def geomFamilyOk (detected : String) (gt : Option String) : Bool :=
  match gt with
  | none => false
  | some t =>
      if detected == litBuildings then t == litPolygon
      else t == litPoint || t == litLineString

/-- Modelled from the spec: a feature is well-formed for the detected target
iff its geometry family matches and its coordinates are well-formed. -/
def validImportFeature (detected : String) (f : ImportFeature) : Bool :=
  geomFamilyOk detected f.geometryType && f.coordinatesWellFormed

def importOkMessage : String := "Import tamamlandı"
def featureErrorMessage : String := "Yanlış feature"

/-- Modelled from the spec: one step of the import pass — a valid feature
is inserted and counted as imported, an invalid one is counted as an error
and its message recorded if it is the first (spec §4.1: "tracks counts
{total, imported, errors}, records the first error message"; "each rejected
feature is counted but does not abort the batch"). -/
def importStep (valid : ImportFeature → Bool) (acc : ImportResult)
    (f : ImportFeature) : ImportResult :=
  if valid f then
    { acc with total := acc.total + 1, imported := acc.imported + 1 }
  else
    { acc with
      total := acc.total + 1
      errors := acc.errors + 1
      first_error := acc.first_error.orElse (fun _ => some featureErrorMessage) }

/-- Modelled from the spec: the import pass over a parsed feature
collection — a single synchronous fold accumulating the summary. -/
def importFeatures (detected : String) (fs : List ImportFeature) :
    ImportResult :=
  fs.foldl (importStep (validImportFeature detected))
    ⟨0, 0, 0, importOkMessage, none, some detected⟩

/-! ## Concrete sample inputs (used by witnesses and counterexamples) -/

def tsSample : String := "2024-01-01T00:00:00Z"

/-- An infrastructure INSERT carrying status `inactive`. -/
def infraInsertInactive : InfraInsert :=
  { stac_id := some "infra-0001"
    type_id := none
    operator_id := none
    geometry := some ⟨PGGeomType.lineString, 4326, JVal.null⟩
    properties := none
    status := some "inactive"
    installed_date := none
    depth_meters := none
    material := none
    capacity := none }

/-- An infrastructure INSERT that omits the status column. -/
def infraInsertNoStatus : InfraInsert :=
  { stac_id := some "infra-0002"
    type_id := none
    operator_id := none
    geometry := some ⟨PGGeomType.point, 4326, JVal.null⟩
    properties := none
    status := none
    installed_date := none
    depth_meters := none
    material := none
    capacity := none }

/-- An infrastructure INSERT with a NULL `stac_id`. -/
def infraInsertNoId : InfraInsert :=
  { stac_id := none
    type_id := none
    operator_id := none
    geometry := some ⟨PGGeomType.point, 4326, JVal.null⟩
    properties := none
    status := none
    installed_date := none
    depth_meters := none
    material := none
    capacity := none }

/-- A building INSERT with a Point geometry (violates the typmod). -/
def buildingInsertPoint : BuildingInsert :=
  { stac_id := some "bld-0001"
    osm_id := none
    geometry := some ⟨PGGeomType.point, 4326, JVal.null⟩
    operator_id := none
    name := none
    name_az := none
    building_type := none
    floors := none
    year_built := none
    address := none
    properties := none }

/-- A well-formed building INSERT (Polygon, SRID 4326). -/
def buildingInsertPoly : BuildingInsert :=
  { stac_id := some "bld-0002"
    osm_id := none
    geometry := some ⟨PGGeomType.polygon, 4326, JVal.null⟩
    operator_id := none
    name := none
    name_az := none
    building_type := none
    floors := none
    year_built := none
    address := none
    properties := none }

/-! ## Theorems -/

theorem importFold_spec (valid : ImportFeature → Bool)
    (fs : List ImportFeature) (acc : ImportResult) :
    (fs.foldl (importStep valid) acc).total = acc.total + fs.length
    ∧ (fs.foldl (importStep valid) acc).imported
        = acc.imported + fs.countP valid
    ∧ (fs.foldl (importStep valid) acc).errors
        = acc.errors + fs.countP (fun f => !(valid f)) := by
  induction fs generalizing acc with
  | nil => simp
  | cons f fs ih =>
      obtain ⟨h1, h2, h3⟩ := ih (importStep valid acc f)
      rw [List.foldl_cons] at *
      cases hv : valid f with
      | true =>
          have hstep : importStep valid acc f
              = { acc with total := acc.total + 1,
                           imported := acc.imported + 1 } := by
            simp [importStep, hv]
          rw [hstep] at h1 h2 h3
          refine ⟨?_, ?_, ?_⟩ <;>
            simp_all [List.countP_cons, hv] <;> omega
      | false =>
          have hstep : importStep valid acc f
              = { acc with total := acc.total + 1,
                           errors := acc.errors + 1,
                           first_error := acc.first_error.orElse
                              (fun _ => some featureErrorMessage) } := by
            simp [importStep, hv]
          rw [hstep] at h1 h2 h3
          refine ⟨?_, ?_, ?_⟩ <;>
            simp_all [List.countP_cons, hv] <;> omega

/-- C1: for an uploaded feature collection with N well-formed and M
malformed features, the import summary reports imported = N, errors = M and
total = N + M.  (The backend import endpoint is not under `src/`; the import
pass is modelled from the spec, see `importFeatures`.) -/
theorem import_summary_counts (detected : String) (fs : List ImportFeature)
    (N M : Nat)
    (hN : fs.countP (validImportFeature detected) = N)
    (hM : fs.countP (fun f => !(validImportFeature detected f)) = M) :
    (importFeatures detected fs).imported = N
    ∧ (importFeatures detected fs).errors = M
    ∧ (importFeatures detected fs).total = N + M := by
  obtain ⟨h1, h2, h3⟩ :=
    importFold_spec (validImportFeature detected) fs
      ⟨0, 0, 0, importOkMessage, none, some detected⟩
  have hlen : fs.length = N + M := by
    rw [← hN, ← hM]
    simpa using List.length_eq_countP_add_countP
      (l := fs) (p := validImportFeature detected)
  refine ⟨?_, ?_, ?_⟩
  · rw [importFeatures, h2, hN]; simp
  · rw [importFeatures, h3, hM]; simp
  · rw [importFeatures, h1, hlen]; simp

/-- Witness for C1: a two-feature file, one well-formed LineString and one
feature with no geometry, imports as 1/1/2. -/
theorem import_summary_counts_witness :
    (importFeatures litInfrastructure
        [⟨some litLineString, true, []⟩, ⟨none, true, []⟩]).imported = 1
    ∧ (importFeatures litInfrastructure
        [⟨some litLineString, true, []⟩, ⟨none, true, []⟩]).errors = 1
    ∧ (importFeatures litInfrastructure
        [⟨some litLineString, true, []⟩, ⟨none, true, []⟩]).total = 1 + 1 :=
  import_summary_counts litInfrastructure
    [⟨some litLineString, true, []⟩, ⟨none, true, []⟩] 1 1
    (by decide) (by decide)

/-- C3: the feature panel classifies a feature as a building exactly when
its properties carry a defined `building_type` key (labelling it
`buildings`), and a feature without that key that instead carries an
`infrastructure_type` or `category` property is labelled
`infrastructure`. -/
theorem detected_type_label (f : GFeature) :
    (detectedTypeLabel f = litBuildings
      ↔ (jlookup (panelProps f) kBuildingType).isSome = true)
    ∧ (jlookup (panelProps f) kBuildingType = none →
        ((jlookup (panelProps f) kInfrastructureType).isSome = true
          ∨ (jlookup (panelProps f) kCategory).isSome = true) →
        detectedTypeLabel f = litInfrastructure) := by
  constructor
  · by_cases h : isBuilding f = true
    · unfold detectedTypeLabel
      rw [if_pos h]
      unfold isBuilding at h
      simp [h]
    · unfold detectedTypeLabel
      rw [if_neg h]
      unfold isBuilding at h
      constructor
      · intro hcontra
        exact absurd hcontra (by decide)
      · intro hcontra
        exact absurd hcontra h
  · intro hnone _
    unfold detectedTypeLabel isBuilding
    rw [hnone]
    rfl

/-- Witness for C3: a feature with only an `infrastructure_type` property is
labelled `infrastructure`; one with `building_type` is labelled
`buildings`. -/
theorem detected_type_label_witness :
    detectedTypeLabel
      ⟨none, some [(kInfrastructureType, JVal.str "fiber_optic")], none⟩
      = litInfrastructure :=
  (detected_type_label
      ⟨none, some [(kInfrastructureType, JVal.str "fiber_optic")], none⟩).2
    (by rfl) (Or.inl (by rfl))

theorem toggleList_twice_mem (code x : String) (l : List String) :
    x ∈ toggleList code (toggleList code l) ↔ x ∈ l := by
  by_cases hc : code ∈ l
  · have h1 : toggleList code l = l.filter (fun o => o != code) := by
      simp [toggleList, List.elem_iff, hc, List.contains]
    have h2 : toggleList code (l.filter (fun o => o != code))
        = l.filter (fun o => o != code) ++ [code] := by
      have : code ∉ l.filter (fun o => o != code) := by
        simp [List.mem_filter]
      simp [toggleList, List.elem_iff, this, List.contains]
    rw [h1, h2]
    simp only [List.mem_append, List.mem_filter, List.mem_singleton,
      bne_iff_ne, ne_eq]
    constructor
    · rintro (⟨hm, _⟩ | rfl)
      · exact hm
      · exact hc
    · intro hm
      by_cases hx : x = code
      · exact Or.inr hx
      · exact Or.inl ⟨hm, hx⟩
  · have h1 : toggleList code l = l ++ [code] := by
      simp [toggleList, List.elem_iff, hc, List.contains]
    have h2 : toggleList code (l ++ [code]) = (l ++ [code]).filter
        (fun o => o != code) := by
      have : code ∈ l ++ [code] := by simp
      simp [toggleList, List.elem_iff, this, List.contains]
    rw [h1, h2]
    simp only [List.filter_append, List.mem_append, List.mem_filter,
      bne_iff_ne, ne_eq]
    constructor
    · rintro (⟨hm, _⟩ | hm)
      · exact hm
      · simp at hm
    · intro hm
      have hx : x ≠ code := fun h => hc (h ▸ hm)
      exact Or.inl ⟨hm, hx⟩

/-- C10: toggling an operator (or category) code twice yields an operator
(or category) list equal as a set to the original, and each single toggle
leaves the other three filter fields unchanged. -/
theorem toggle_involution (s : FilterState) (code : String) :
    (∀ x, x ∈ (toggleOperator code (toggleOperator code s)).operators
        ↔ x ∈ s.operators)
    ∧ (∀ x, x ∈ (toggleCategory code (toggleCategory code s)).categories
        ↔ x ∈ s.categories)
    ∧ (toggleOperator code s).categories = s.categories
    ∧ (toggleOperator code s).showInfrastructure = s.showInfrastructure
    ∧ (toggleOperator code s).showBuildings = s.showBuildings
    ∧ (toggleCategory code s).operators = s.operators
    ∧ (toggleCategory code s).showInfrastructure = s.showInfrastructure
    ∧ (toggleCategory code s).showBuildings = s.showBuildings := by
  refine ⟨?_, ?_, rfl, rfl, rfl, rfl, rfl, rfl⟩
  · intro x
    exact toggleList_twice_mem code x s.operators
  · intro x
    exact toggleList_twice_mem code x s.categories

/-- C2: in `loadInfrastructure`, with more than one operator selected a
fetched feature is rendered only if its `operator_code` is among the
selected operators, and with more than one category selected only if its
`category` is among the selected categories; with exactly one operator
(resp. category) selected, that value is sent as a server query parameter
and the corresponding client-side guard passes every feature. -/
theorem infra_filtering (f : FilterState) (props : Option JObj) :
    (f.operators.length > 1 → infraClientPass f props = true →
        propStrMem f.operators props kOperatorCode = true)
    ∧ (f.categories.length > 1 → infraClientPass f props = true →
        propStrMem f.categories props kCategory = true)
    ∧ (f.operators.length = 1 →
        (kOperator, f.operators.headD "") ∈ infraQueryParams f
        ∧ infraOperatorPass f props = true)
    ∧ (f.categories.length = 1 →
        (kCategory, f.categories.headD "") ∈ infraQueryParams f
        ∧ infraCategoryPass f props = true) := by
  refine ⟨?_, ?_, ?_, ?_⟩
  · intro hlen hpass
    have hop : infraOperatorPass f props = true :=
      (Bool.and_eq_true _ _ |>.mp hpass).1
    unfold infraOperatorPass at hop
    cases hm : propStrMem f.operators props kOperatorCode with
    | true => rfl
    | false =>
        rw [hm, decide_eq_true hlen] at hop
        simp at hop
  · intro hlen hpass
    have hcat : infraCategoryPass f props = true :=
      (Bool.and_eq_true _ _ |>.mp hpass).2
    unfold infraCategoryPass at hcat
    cases hm : propStrMem f.categories props kCategory with
    | true => rfl
    | false =>
        rw [hm, decide_eq_true hlen] at hcat
        simp at hcat
  · intro hlen
    constructor
    · simp [infraQueryParams, hlen]
    · unfold infraOperatorPass
      rw [hlen]
      simp
  · intro hlen
    constructor
    · simp [infraQueryParams, hlen]
    · unfold infraCategoryPass
      rw [hlen]
      simp

/-- Witness for C2: with operators {a, b} selected, a feature whose
`operator_code` is c fails the client guard; with exactly operator a
selected, the `operator` query parameter is sent. -/
theorem infra_filtering_witness :
    (FilterState.mk ["a", "b"] [] true true).operators.length > 1
    ∧ (kOperator, "a") ∈ infraQueryParams (FilterState.mk ["a"] [] true true) := by
  constructor
  · decide
  · exact ((infra_filtering (FilterState.mk ["a"] [] true true) none).2.2.1
      (by decide)).1

/-- C8: a chosen file is accepted for upload exactly when its name ends in
`.geojson` or `.json`; any other file leaves the selection unchanged and
produces the result {total 0, imported 0, errors 1, error message} without
any request, and a rejected name can never become the uploaded file. -/
theorem file_select_gate (name : String) (s : PortalState) :
    (acceptedFileName name = true →
        handleFileSelect (some name) s
          = { selectedFile := some name, importResult := none })
    ∧ (acceptedFileName name = false →
        (handleFileSelect (some name) s).importResult
            = some ⟨0, 0, 1, rejectMessage, none, none⟩
        ∧ (handleFileSelect (some name) s).selectedFile = s.selectedFile)
    ∧ (selectionInvariant s →
        selectionInvariant (handleFileSelect (some name) s))
    ∧ (selectionInvariant s → acceptedFileName name = false →
        uploadCandidate (handleFileSelect (some name) s) ≠ some name) := by
  have hred : handleFileSelect (some name) s
      = if acceptedFileName name = true then
          { selectedFile := some name, importResult := none }
        else
          { s with importResult := some ⟨0, 0, 1, rejectMessage, none, none⟩ } :=
    rfl
  refine ⟨?_, ?_, ?_, ?_⟩
  · intro hacc
    rw [hred, if_pos hacc]
  · intro hrej
    rw [hred, if_neg (by simp [hrej])]
    exact ⟨rfl, rfl⟩
  · intro hinv
    rw [hred]
    cases hacc : acceptedFileName name with
    | true =>
        rw [if_pos rfl]
        intro nm hnm
        cases hnm
        exact hacc
    | false =>
        rw [if_neg (by simp)]
        intro nm hnm
        exact hinv nm hnm
  · intro hinv hrej hcontra
    unfold uploadCandidate at hcontra
    rw [hred, if_neg (by simp [hrej])] at hcontra
    have := hinv name hcontra
    rw [hrej] at this
    exact absurd this (by simp)

/-- Witness for C8: from an empty portal state, selecting `data.txt` is
rejected with the 0/0/1 result and nothing selected for upload. -/
theorem file_select_gate_witness :
    (handleFileSelect (some "data.txt") ⟨none, none⟩).importResult
        = some ⟨0, 0, 1, rejectMessage, none, none⟩
    ∧ uploadCandidate (handleFileSelect (some "data.txt") ⟨none, none⟩)
        ≠ some "data.txt" := by
  constructor
  · exact ((file_select_gate "data.txt" ⟨none, none⟩).2.1 (by decide)).1
  · exact (file_select_gate "data.txt" ⟨none, none⟩).2.2.2
      (fun nm hnm => by cases hnm) (by decide)

theorem mapLatLng_isSome (l : List JVal) (h : l.all posOk = true) :
    (mapLatLng l).isSome = true := by
  induction l with
  | nil => rfl
  | cons c cs ih =>
      simp only [List.all_cons, Bool.and_eq_true] at h
      obtain ⟨hc, hcs⟩ := h
      have h1 := ih hcs
      unfold posOk at hc
      cases he : latLngOfEntry c with
      | none => rw [he] at hc; exact absurd hc (by simp)
      | some p =>
          cases hm : mapLatLng cs with
          | none => rw [hm] at h1; exact absurd h1 (by simp)
          | some ps =>
              unfold mapLatLng
              rw [he, hm]
              rfl

theorem renderInfraGeom_some (g : RawGeom) (coords : List JVal)
    (hc : g.coordinates = some coords) :
    renderInfraGeom (some g)
      = if g.gtype = litLineString ∧ coords.length ≥ 2 then
          (mapLatLng coords).map Rendered.polyline
        else if g.gtype = litPoint ∧ coords.length ≥ 2 then
          (latLngOfPos coords).map Rendered.circleMarker
        else none := by
  obtain ⟨gt, gc⟩ := g
  have hgc : gc = some coords := hc
  subst hgc
  rfl

theorem renderBuildingGeom_some (g : RawGeom) (coords : List JVal)
    (hc : g.coordinates = some coords) :
    renderBuildingGeom (some g)
      = if g.gtype = litPolygon ∧ ringLen coords ≥ 4 then
          (mapLatLng ((ringOf coords).getD [])).map Rendered.polygon
        else if g.gtype = litPoint ∧ coords.length ≥ 2 then
          (latLngOfPos coords).map Rendered.circleMarker
        else none := by
  obtain ⟨gt, gc⟩ := g
  have hgc : gc = some coords := hc
  subst hgc
  rfl

theorem renderGeom_noCoords (g : RawGeom) (hc : g.coordinates = none) :
    renderInfraGeom (some g) = none ∧ renderBuildingGeom (some g) = none := by
  obtain ⟨gt, gc⟩ := g
  have hgc : gc = none := hc
  subst hgc
  exact ⟨rfl, rfl⟩

theorem serverGeomOk_some (g : RawGeom) (coords : List JVal)
    (hc : g.coordinates = some coords) :
    serverGeomOk g
      = (if g.gtype = litPoint then (latLngOfPos coords).isSome
         else if g.gtype = litLineString then coords.all posOk
         else if g.gtype = litPolygon then
           coords.all (fun r =>
             match r with
             | .arr ps => ps.all posOk
             | _ => false)
         else true) := by
  obtain ⟨gt, gc⟩ := g
  have hgc : gc = some coords := hc
  subst hgc
  rfl

theorem ringOf_eq_some (coords ring : List JVal)
    (h : ringOf coords = some ring) :
    coords.get? 0 = some (JVal.arr ring) := by
  unfold ringOf at h
  cases hg0 : coords.get? 0 with
  | none => rw [hg0] at h; cases h
  | some v =>
      rw [hg0] at h
      cases v with
      | arr ps => cases h; rfl
      | null => cases h
      | bool b => cases h
      | num n => cases h
      | str s => cases h
      | obj o => cases h

/-- C9: the loaders' per-feature geometry handling is a total skip-or-render
decision: a missing geometry, missing coordinates, a LineString/Point
coordinate array of fewer than 2 entries, a Polygon outer ring of fewer than
4 positions, or a geometry type outside the handled set (LineString/Point
for infrastructure, Polygon/Point for buildings) is silently skipped, and on
server-emitted coordinate data every remaining feature is rendered. -/
theorem render_skip_total (g : RawGeom) (coords : List JVal) :
    (renderInfraGeom none = none)
    ∧ (renderBuildingGeom none = none)
    ∧ (g.coordinates = none →
        renderInfraGeom (some g) = none ∧ renderBuildingGeom (some g) = none)
    ∧ (g.coordinates = some coords →
        ((g.gtype ≠ litLineString ∧ g.gtype ≠ litPoint) →
            renderInfraGeom (some g) = none)
        ∧ ((g.gtype ≠ litPolygon ∧ g.gtype ≠ litPoint) →
            renderBuildingGeom (some g) = none)
        ∧ (coords.length < 2 → renderInfraGeom (some g) = none)
        ∧ (g.gtype = litPoint → coords.length < 2 →
            renderBuildingGeom (some g) = none)
        ∧ (g.gtype = litPolygon → ringLen coords < 4 →
            renderBuildingGeom (some g) = none)
        ∧ (serverGeomOk g = true →
            (g.gtype = litLineString → coords.length ≥ 2 →
                (renderInfraGeom (some g)).isSome = true)
            ∧ (g.gtype = litPoint → coords.length ≥ 2 →
                (renderInfraGeom (some g)).isSome = true
                ∧ (renderBuildingGeom (some g)).isSome = true)
            ∧ (g.gtype = litPolygon → ringLen coords ≥ 4 →
                (renderBuildingGeom (some g)).isSome = true))) := by
  refine ⟨rfl, rfl, ?_, ?_⟩
  · intro hc
    exact renderGeom_noCoords g hc
  · intro hc
    refine ⟨?_, ?_, ?_, ?_, ?_, ?_⟩
    · rintro ⟨hnl, hnp⟩
      rw [renderInfraGeom_some g coords hc,
        if_neg (by rintro ⟨h1, -⟩; exact hnl h1),
        if_neg (by rintro ⟨h1, -⟩; exact hnp h1)]
    · rintro ⟨hng, hnp⟩
      rw [renderBuildingGeom_some g coords hc,
        if_neg (by rintro ⟨h1, -⟩; exact hng h1),
        if_neg (by rintro ⟨h1, -⟩; exact hnp h1)]
    · intro hlt
      rw [renderInfraGeom_some g coords hc,
        if_neg (by rintro ⟨-, h2⟩; omega),
        if_neg (by rintro ⟨-, h2⟩; omega)]
    · intro hg hlt
      rw [renderBuildingGeom_some g coords hc,
        if_neg (by rintro ⟨h1, -⟩; rw [hg] at h1; exact absurd h1 (by decide)),
        if_neg (by rintro ⟨-, h2⟩; omega)]
    · intro hg hlt
      rw [renderBuildingGeom_some g coords hc,
        if_neg (by rintro ⟨-, h2⟩; omega),
        if_neg (by rintro ⟨h1, -⟩; rw [hg] at h1; exact absurd h1 (by decide))]
    · intro hsrv
      rw [serverGeomOk_some g coords hc] at hsrv
      refine ⟨?_, ?_, ?_⟩
      · intro hg hlen
        rw [hg] at hsrv
        rw [if_neg (by decide), if_pos rfl] at hsrv
        rw [renderInfraGeom_some g coords hc, if_pos ⟨hg, hlen⟩]
        have := mapLatLng_isSome coords hsrv
        cases hm : mapLatLng coords with
        | none => rw [hm] at this; exact absurd this (by simp)
        | some ps => rfl
      · intro hg hlen
        rw [hg] at hsrv
        rw [if_pos rfl] at hsrv
        constructor
        · rw [renderInfraGeom_some g coords hc,
            if_neg (by rintro ⟨h1, -⟩; rw [hg] at h1; exact absurd h1 (by decide)),
            if_pos ⟨hg, hlen⟩]
          cases hp : latLngOfPos coords with
          | none => rw [hp] at hsrv; exact absurd hsrv (by simp)
          | some p => rfl
        · rw [renderBuildingGeom_some g coords hc,
            if_neg (by rintro ⟨h1, -⟩; rw [hg] at h1; exact absurd h1 (by decide)),
            if_pos ⟨hg, hlen⟩]
          cases hp : latLngOfPos coords with
          | none => rw [hp] at hsrv; exact absurd hsrv (by simp)
          | some p => rfl
      · intro hg hrl
        rw [hg] at hsrv
        rw [if_neg (by decide), if_neg (by decide), if_pos rfl] at hsrv
        cases hro : ringOf coords with
        | none => unfold ringLen at hrl; rw [hro] at hrl; simp at hrl
        | some ring =>
            have hget := ringOf_eq_some coords ring hro
            have hmem : JVal.arr ring ∈ coords := List.get?_mem hget
            have hring : ring.all posOk = true := by
              have := (List.all_eq_true.mp hsrv) (JVal.arr ring) hmem
              simpa using this
            rw [renderBuildingGeom_some g coords hc, if_pos ⟨hg, hrl⟩, hro]
            have := mapLatLng_isSome ring hring
            cases hm : mapLatLng ring with
            | none => rw [hm] at this; exact absurd this (by simp)
            | some ps => simp [hm]

/-- Witness for C9: a two-position LineString is rendered as a polyline; a
MultiLineString (outside the handled set) is skipped. -/
theorem render_skip_total_witness :
    (renderInfraGeom (some ⟨litLineString,
        some [JVal.arr [JVal.num 49, JVal.num 40],
              JVal.arr [JVal.num 50, JVal.num 41]]⟩)).isSome = true
    ∧ renderInfraGeom (some ⟨"MultiLineString",
        some [JVal.arr [JVal.num 49, JVal.num 40]]⟩) = none := by
  constructor
  · exact ((((render_skip_total ⟨litLineString,
        some [JVal.arr [JVal.num 49, JVal.num 40],
              JVal.arr [JVal.num 50, JVal.num 41]]⟩
        [JVal.arr [JVal.num 49, JVal.num 40],
         JVal.arr [JVal.num 50, JVal.num 41]]).2.2.2 rfl).2.2.2.2.2
        (by decide)).1 rfl (by decide))
  · exact (((render_skip_total ⟨"MultiLineString",
        some [JVal.arr [JVal.num 49, JVal.num 40]]⟩
        [JVal.arr [JVal.num 49, JVal.num 40]]).2.2.2 rfl).1
        (by constructor <;> decide))

theorem distinctIds_append_single (l : List String) (s : String)
    (hd : distinctIds l = true) (hall : l.all (fun y => y != s) = true) :
    distinctIds (l ++ [s]) = true := by
  induction l with
  | nil => rfl
  | cons x xs ih =>
      simp only [List.all_cons, Bool.and_eq_true] at hall
      unfold distinctIds at hd
      simp only [Bool.and_eq_true] at hd
      have hrec := ih hd.2 hall.2
      show ((xs ++ [s]).all (fun y => y != x) && distinctIds (xs ++ [s])) = true
      simp only [Bool.and_eq_true, List.all_append, List.all_cons, List.all_nil]
      refine ⟨⟨hd.1, ?_, trivial⟩, hrec⟩
      have hxs : x ≠ s := by
        have := hall.1
        simpa [bne_iff_ne] using this
      simp [bne_iff_ne]
      exact fun h => hxs h.symm

theorem insertInfra_eq_some (ops : List OperatorRow) (tys : List InfraTypeRow)
    (tbl : List InfraRow) (now : String) (r : InfraInsert)
    (tbl' : List InfraRow) (h : insertInfra ops tys tbl now r = some tbl') :
    infraInsertOk ops tys tbl r = true
    ∧ tbl' = tbl ++ [mkInfraRow now r] := by
  unfold insertInfra at h
  by_cases hok : infraInsertOk ops tys tbl r = true
  · rw [if_pos hok] at h
    exact ⟨hok, (Option.some.inj h).symm⟩
  · rw [if_neg hok] at h
    cases h

theorem insertBuilding_eq_some (ops : List OperatorRow)
    (tbl : List BuildingRow) (now : String) (r : BuildingInsert)
    (tbl' : List BuildingRow) (h : insertBuilding ops tbl now r = some tbl') :
    buildingInsertOk ops tbl r = true
    ∧ tbl' = tbl ++ [mkBuildingRow now r] := by
  unfold insertBuilding at h
  by_cases hok : buildingInsertOk ops tbl r = true
  · rw [if_pos hok] at h
    exact ⟨hok, (Option.some.inj h).symm⟩
  · rw [if_neg hok] at h
    cases h

theorem updateInfra_eq_some (ops : List OperatorRow) (tys : List InfraTypeRow)
    (tbl : List InfraRow) (tid : String) (p : InfraPatch)
    (tblU : List InfraRow) (h : updateInfra ops tys tbl tid p = some tblU) :
    infraPatchOk ops tys p = true
    ∧ distinctIds ((updatedInfraTable tbl tid p).map
        (fun row => row.stac_id)) = true
    ∧ tblU = updatedInfraTable tbl tid p := by
  unfold updateInfra at h
  by_cases hok : (infraPatchOk ops tys p
      && distinctIds ((updatedInfraTable tbl tid p).map
        (fun row => row.stac_id))) = true
  · rw [if_pos hok] at h
    simp only [Bool.and_eq_true] at hok
    exact ⟨hok.1, hok.2, (Option.some.inj h).symm⟩
  · rw [if_neg hok] at h
    cases h

theorem updateBuilding_eq_some (ops : List OperatorRow)
    (tbl : List BuildingRow) (tid : String) (p : BuildingPatch)
    (tblU : List BuildingRow) (h : updateBuilding ops tbl tid p = some tblU) :
    buildingPatchOk ops p = true
    ∧ distinctIds ((updatedBuildingTable tbl tid p).map
        (fun row => row.stac_id)) = true
    ∧ tblU = updatedBuildingTable tbl tid p := by
  unfold updateBuilding at h
  by_cases hok : (buildingPatchOk ops p
      && distinctIds ((updatedBuildingTable tbl tid p).map
        (fun row => row.stac_id))) = true
  · rw [if_pos hok] at h
    simp only [Bool.and_eq_true] at hok
    exact ⟨hok.1, hok.2, (Option.some.inj h).symm⟩
  · rw [if_neg hok] at h
    cases h

theorem infraInsertOk_parts (ops : List OperatorRow) (tys : List InfraTypeRow)
    (tbl : List InfraRow) (r : InfraInsert)
    (hok : infraInsertOk ops tys tbl r = true) :
    (∃ s, r.stac_id = some s ∧ s.length ≤ 255
        ∧ tbl.all (fun row => row.stac_id != s) = true)
    ∧ (∃ g, r.geometry = some g ∧ g.srid = 4326)
    ∧ (∀ s, r.status = some s → s.length ≤ 50) := by
  unfold infraInsertOk at hok
  simp only [Bool.and_eq_true] at hok
  obtain ⟨⟨⟨⟨⟨⟨h1, h2⟩, h3⟩, h4⟩, h5⟩, h6⟩, h7⟩ := hok
  refine ⟨?_, ?_, ?_⟩
  · cases hs : r.stac_id with
    | none => rw [hs] at h1; cases h1
    | some s =>
        rw [hs] at h1
        simp only [Bool.and_eq_true] at h1
        refine ⟨s, rfl, ?_, h1.2⟩
        have := h1.1
        unfold varcharFits at this
        exact of_decide_eq_true this
  · cases hg : r.geometry with
    | none => rw [hg] at h2; cases h2
    | some g =>
        simp only [hg] at h2
        exact ⟨g, rfl, by simpa using h2⟩
  · intro s hs
    rw [hs] at h5
    unfold varcharFits at h5
    exact of_decide_eq_true h5

theorem buildingInsertOk_parts (ops : List OperatorRow)
    (tbl : List BuildingRow) (r : BuildingInsert)
    (hok : buildingInsertOk ops tbl r = true) :
    (∃ s, r.stac_id = some s ∧ s.length ≤ 255
        ∧ tbl.all (fun row => row.stac_id != s) = true)
    ∧ (∃ g, r.geometry = some g ∧ g.gtype = PGGeomType.polygon
        ∧ g.srid = 4326) := by
  unfold buildingInsertOk at hok
  simp only [Bool.and_eq_true] at hok
  obtain ⟨⟨⟨⟨⟨h1, h2⟩, h3⟩, h4⟩, h5⟩, h6⟩ := hok
  refine ⟨?_, ?_⟩
  · cases hs : r.stac_id with
    | none => rw [hs] at h1; cases h1
    | some s =>
        rw [hs] at h1
        simp only [Bool.and_eq_true] at h1
        refine ⟨s, rfl, ?_, h1.2⟩
        have := h1.1
        unfold varcharFits at this
        exact of_decide_eq_true this
  · cases hg : r.geometry with
    | none => rw [hg] at h2; cases h2
    | some g =>
        simp only [hg, Bool.and_eq_true] at h2
        refine ⟨g, rfl, ?_, by simpa using h2.2⟩
        have := h2.1
        cases hgt : g.gtype <;> rw [hgt] at this <;> first
          | rfl
          | exact absurd this (by decide)

theorem infraPatchOk_geom (ops : List OperatorRow) (tys : List InfraTypeRow)
    (p : InfraPatch) (hok : infraPatchOk ops tys p = true) :
    ∀ g, p.geometry = some g → g.srid = 4326 := by
  unfold infraPatchOk at hok
  simp only [Bool.and_eq_true] at hok
  obtain ⟨⟨⟨⟨⟨⟨h1, h2⟩, h3⟩, h4⟩, h5⟩, h6⟩, h7⟩ := hok
  intro g hg
  simp only [hg] at h2
  simpa using h2

theorem buildingPatchOk_geom (ops : List OperatorRow) (p : BuildingPatch)
    (hok : buildingPatchOk ops p = true) :
    ∀ g, p.geometry = some g → g.gtype = PGGeomType.polygon
      ∧ g.srid = 4326 := by
  unfold buildingPatchOk at hok
  simp only [Bool.and_eq_true] at hok
  obtain ⟨⟨⟨⟨h1, h2⟩, h3⟩, h4⟩, h5⟩ := hok
  intro g hg
  simp only [hg, Bool.and_eq_true] at h2
  refine ⟨?_, by simpa using h2.2⟩
  have := h2.1
  cases hgt : g.gtype <;> rw [hgt] at this <;> first
    | rfl
    | exact absurd this (by decide)

/-- Counterexample to C4 as stated: the schema's `status` column is a bare
`VARCHAR(50) DEFAULT 'active'` — the four intended values exist only in a
SQL comment, with no CHECK constraint or enum type — so an INSERT with
status `inactive` (a value the frontend's own `STATUS_CONFIG` carries too)
passes every declared constraint and is persisted. -/
theorem status_enum_counterexample :
    (insertInfra [] [] [] tsSample infraInsertInactive).isSome = true
    ∧ (mkInfraRow tsSample infraInsertInactive).status = "inactive"
    ∧ "inactive" ∉ statusEnumValues
    ∧ "inactive" ∈ mapStatusConfigKeys := by
  refine ⟨by decide, rfl, by decide, by decide⟩

/-- C4 as amended: rows inserted without an explicit status default to
`active`, and the only constraint the schema places on a persisted status is
the VARCHAR(50) width — the four-value set of the DDL comment is not
enforced. -/
theorem status_default_and_width (ops : List OperatorRow)
    (tys : List InfraTypeRow) (tbl : List InfraRow) (now : String)
    (r : InfraInsert) (h : (insertInfra ops tys tbl now r).isSome = true) :
    (r.status = none → (mkInfraRow now r).status = statusDefault)
    ∧ (mkInfraRow now r).status.length ≤ 50 := by
  have hok : infraInsertOk ops tys tbl r = true := by
    unfold insertInfra at h
    by_cases hk : infraInsertOk ops tys tbl r = true
    · exact hk
    · rw [if_neg hk] at h
      exact absurd h (by simp)
  obtain ⟨-, -, hst⟩ := infraInsertOk_parts ops tys tbl r hok
  have hms : (mkInfraRow now r).status = r.status.getD statusDefault := rfl
  constructor
  · intro hnone
    rw [hms, hnone]
    rfl
  · rw [hms]
    cases hs : r.status with
    | none => decide
    | some s => exact hst s hs

/-- Witness for the amended C4: a concrete insert omitting `status` persists
status `active`. -/
theorem status_default_and_width_witness :
    (mkInfraRow tsSample infraInsertNoStatus).status = statusDefault :=
  (status_default_and_width [] [] [] tsSample infraInsertNoStatus
    (by decide)).1 rfl

/-- C5: every persisted infrastructure/building row has a non-null
`stac_id`, unique within its table, and a non-null geometry in SRID 4326:
inserts omitting the identifier or the geometry are rejected, and every
accepted insert and update preserves the invariant. -/
theorem persisted_feature_invariant (ops : List OperatorRow)
    (tys : List InfraTypeRow) (tbl tbl' tblU : List InfraRow) (now : String)
    (r : InfraInsert) (tid : String) (p : InfraPatch)
    (btbl btbl' btblU : List BuildingRow) (br : BuildingInsert)
    (btid : String) (bp : BuildingPatch) :
    (r.stac_id = none → insertInfra ops tys tbl now r = none)
    ∧ (r.geometry = none → insertInfra ops tys tbl now r = none)
    ∧ (infraInv tbl → insertInfra ops tys tbl now r = some tbl' →
        infraInv tbl')
    ∧ (infraInv tbl → updateInfra ops tys tbl tid p = some tblU →
        infraInv tblU)
    ∧ (br.stac_id = none → insertBuilding ops btbl now br = none)
    ∧ (br.geometry = none → insertBuilding ops btbl now br = none)
    ∧ (buildingInv btbl → insertBuilding ops btbl now br = some btbl' →
        buildingInv btbl')
    ∧ (buildingInv btbl → updateBuilding ops btbl btid bp = some btblU →
        buildingInv btblU) := by
  refine ⟨?_, ?_, ?_, ?_, ?_, ?_, ?_, ?_⟩
  · intro hsid
    have hok : infraInsertOk ops tys tbl r = false := by
      unfold infraInsertOk
      rw [hsid]
      simp
    simp [insertInfra, hok]
  · intro hg
    have hok : infraInsertOk ops tys tbl r = false := by
      unfold infraInsertOk
      rw [hg]
      simp
    simp [insertInfra, hok]
  · intro hinv hins
    obtain ⟨hok, htbl'⟩ := insertInfra_eq_some ops tys tbl now r tbl' hins
    obtain ⟨⟨s, hsid, -, hall⟩, ⟨g, hgeom, hsrid⟩, -⟩ :=
      infraInsertOk_parts ops tys tbl r hok
    subst htbl'
    have hrowid : (mkInfraRow now r).stac_id = s := by
      have : (mkInfraRow now r).stac_id = r.stac_id.getD "" := rfl
      rw [this, hsid]
      rfl
    have hrowgeom : (mkInfraRow now r).geometry = g := by
      have : (mkInfraRow now r).geometry
          = r.geometry.getD ⟨PGGeomType.point, 4326, JVal.null⟩ := rfl
      rw [this, hgeom]
      rfl
    constructor
    · simp only [List.map_append, List.map_cons, List.map_nil]
      apply distinctIds_append_single _ _ hinv.1
      rw [hrowid]
      refine List.all_eq_true.mpr ?_
      intro y hy
      obtain ⟨row, hrowmem, rfl⟩ := List.mem_map.mp hy
      exact (List.all_eq_true.mp hall) row hrowmem
    · intro r' hr'
      rcases List.mem_append.mp hr' with hmem | hmem
      · exact hinv.2 r' hmem
      · rw [List.mem_singleton.mp hmem, hrowgeom]
        exact hsrid
  · intro hinv hupd
    obtain ⟨hpok, hdist, htblU⟩ :=
      updateInfra_eq_some ops tys tbl tid p tblU hupd
    subst htblU
    refine ⟨hdist, ?_⟩
    intro r' hr'
    obtain ⟨row, hrow, heq⟩ := List.mem_map.mp hr'
    by_cases hb : (row.stac_id == tid) = true
    · rw [if_pos hb] at heq
      subst heq
      have hgeq : (applyInfraPatch p row).geometry
          = p.geometry.getD row.geometry := rfl
      cases hpg : p.geometry with
      | none =>
          rw [hgeq, hpg]
          exact hinv.2 row hrow
      | some g =>
          rw [hgeq, hpg]
          exact infraPatchOk_geom ops tys p hpok g hpg
    · rw [if_neg hb] at heq
      subst heq
      exact hinv.2 row hrow
  · intro hsid
    have hok : buildingInsertOk ops btbl br = false := by
      unfold buildingInsertOk
      rw [hsid]
      simp
    simp [insertBuilding, hok]
  · intro hg
    have hok : buildingInsertOk ops btbl br = false := by
      unfold buildingInsertOk
      rw [hg]
      simp
    simp [insertBuilding, hok]
  · intro hinv hins
    obtain ⟨hok, htbl'⟩ := insertBuilding_eq_some ops btbl now br btbl' hins
    obtain ⟨⟨s, hsid, -, hall⟩, ⟨g, hgeom, -, hsrid⟩⟩ :=
      buildingInsertOk_parts ops btbl br hok
    subst htbl'
    have hrowid : (mkBuildingRow now br).stac_id = s := by
      have : (mkBuildingRow now br).stac_id = br.stac_id.getD "" := rfl
      rw [this, hsid]
      rfl
    have hrowgeom : (mkBuildingRow now br).geometry = g := by
      have : (mkBuildingRow now br).geometry
          = br.geometry.getD ⟨PGGeomType.polygon, 4326, JVal.null⟩ := rfl
      rw [this, hgeom]
      rfl
    constructor
    · simp only [List.map_append, List.map_cons, List.map_nil]
      apply distinctIds_append_single _ _ hinv.1
      rw [hrowid]
      refine List.all_eq_true.mpr ?_
      intro y hy
      obtain ⟨row, hrowmem, rfl⟩ := List.mem_map.mp hy
      exact (List.all_eq_true.mp hall) row hrowmem
    · intro r' hr'
      rcases List.mem_append.mp hr' with hmem | hmem
      · exact hinv.2 r' hmem
      · rw [List.mem_singleton.mp hmem, hrowgeom]
        exact hsrid
  · intro hinv hupd
    obtain ⟨hpok, hdist, htblU⟩ :=
      updateBuilding_eq_some ops btbl btid bp btblU hupd
    subst htblU
    refine ⟨hdist, ?_⟩
    intro r' hr'
    obtain ⟨row, hrow, heq⟩ := List.mem_map.mp hr'
    by_cases hb : (row.stac_id == btid) = true
    · rw [if_pos hb] at heq
      subst heq
      have hgeq : (applyBuildingPatch bp row).geometry
          = bp.geometry.getD row.geometry := rfl
      cases hpg : bp.geometry with
      | none =>
          rw [hgeq, hpg]
          exact hinv.2 row hrow
      | some g =>
          rw [hgeq, hpg]
          exact (buildingPatchOk_geom ops bp hpok g hpg).2
    · rw [if_neg hb] at heq
      subst heq
      exact hinv.2 row hrow

/-- Witness for C5: an insert with NULL `stac_id` is rejected, and a
well-formed building insert into the empty table yields a table satisfying
the invariant. -/
theorem persisted_feature_invariant_witness :
    insertInfra [] [] [] tsSample infraInsertNoId = none
    ∧ buildingInv [mkBuildingRow tsSample buildingInsertPoly] := by
  have h := persisted_feature_invariant [] [] [] [] [] tsSample
    infraInsertNoId "" ⟨none, none, none, none, none, none, none, none,
      none, none⟩ [] [mkBuildingRow tsSample buildingInsertPoly] []
    buildingInsertPoly "" ⟨none, none, none, none, none, none, none, none⟩
  refine ⟨h.1 rfl, ?_⟩
  exact h.2.2.2.2.2.2.1 ⟨rfl, fun r hr => nomatch hr⟩ (by rfl)

/-- C6: every persisted building geometry is a Polygon in SRID 4326 — a
non-polygon building insert is rejected by the `GEOMETRY(POLYGON, 4326)`
typmod, updates cannot break the invariant, and (modelled from the spec) the
backend import validation accepts a feature for the buildings table only if
its geometry type is Polygon. -/
theorem building_polygon_only (ops : List OperatorRow)
    (tbl tbl' tblU : List BuildingRow) (now : String) (r : BuildingInsert)
    (tid : String) (p : BuildingPatch) (g : PGGeometry) (f : ImportFeature) :
    (buildingGeomInv tbl → insertBuilding ops tbl now r = some tbl' →
        buildingGeomInv tbl')
    ∧ (r.geometry = some g → g.gtype ≠ PGGeomType.polygon →
        insertBuilding ops tbl now r = none)
    ∧ (buildingGeomInv tbl → updateBuilding ops tbl tid p = some tblU →
        buildingGeomInv tblU)
    ∧ (validImportFeature litBuildings f = true →
        f.geometryType = some litPolygon) := by
  refine ⟨?_, ?_, ?_, ?_⟩
  · intro hinv hins
    obtain ⟨hok, htbl'⟩ := insertBuilding_eq_some ops tbl now r tbl' hins
    obtain ⟨-, ⟨g', hgeom, hpoly, hsrid⟩⟩ :=
      buildingInsertOk_parts ops tbl r hok
    subst htbl'
    intro r' hr'
    rcases List.mem_append.mp hr' with hmem | hmem
    · exact hinv r' hmem
    · have hrowgeom : (mkBuildingRow now r).geometry = g' := by
        have : (mkBuildingRow now r).geometry
            = r.geometry.getD ⟨PGGeomType.polygon, 4326, JVal.null⟩ := rfl
        rw [this, hgeom]
        rfl
      rw [List.mem_singleton.mp hmem, hrowgeom]
      exact ⟨hpoly, hsrid⟩
  · intro hg hnp
    have hbeq : (g.gtype == PGGeomType.polygon) = false := by
      cases hq : (g.gtype == PGGeomType.polygon) with
      | false => rfl
      | true => exact absurd (eq_of_beq hq) hnp
    have hok : buildingInsertOk ops tbl r = false := by
      unfold buildingInsertOk
      rw [hg]
      simp [hbeq]
    simp [insertBuilding, hok]
  · intro hinv hupd
    obtain ⟨hpok, -, htblU⟩ := updateBuilding_eq_some ops tbl tid p tblU hupd
    subst htblU
    intro r' hr'
    obtain ⟨row, hrow, heq⟩ := List.mem_map.mp hr'
    by_cases hb : (row.stac_id == tid) = true
    · rw [if_pos hb] at heq
      subst heq
      have hgeq : (applyBuildingPatch p row).geometry
          = p.geometry.getD row.geometry := rfl
      cases hpg : p.geometry with
      | none =>
          rw [hgeq, hpg]
          exact hinv row hrow
      | some g' =>
          rw [hgeq, hpg]
          exact buildingPatchOk_geom ops p hpok g' hpg
    · rw [if_neg hb] at heq
      subst heq
      exact hinv row hrow
  · intro hv
    unfold validImportFeature at hv
    simp only [Bool.and_eq_true] at hv
    have hfam := hv.1
    cases hgt : f.geometryType with
    | none => simp [geomFamilyOk, hgt] at hfam
    | some t =>
        simp [geomFamilyOk, hgt] at hfam
        rw [hfam]

/-- Witness for C6: the Point-geometry building insert is rejected, and a
Point import feature is invalid for the buildings target. -/
theorem building_polygon_only_witness :
    insertBuilding [] [] tsSample buildingInsertPoint = none := by
  exact (building_polygon_only [] [] [] [] tsSample buildingInsertPoint ""
    ⟨none, none, none, none, none, none, none, none⟩
    ⟨PGGeomType.point, 4326, JVal.null⟩
    ⟨some litPoint, true, []⟩).2.1 rfl (by decide)

/-- C7: each `stac_items` row re-encodes the stored geometry as its GeoJSON
object, and its properties are exactly the join-built base object merged
with the row's free-form stored properties, the stored properties winning on
every duplicate key (PostgreSQL `jsonb ||` with the stored properties on the
right). -/
theorem stac_items_projection (ops : List OperatorRow)
    (tys : List InfraTypeRow) (i : InfraRow) (b : BuildingRow) (k : String) :
    (stacItemInfra ops tys i).geometry = stAsGeoJSON i.geometry
    ∧ (stacItemBuilding ops b).geometry = stAsGeoJSON b.geometry
    ∧ jlookup (stacItemInfra ops tys i).properties k
        = (jlookup i.properties k).or
            (jlookup (infraBaseProps i (joinOperator ops i.operator_id)
              (joinInfraType tys i.type_id)) k)
    ∧ jlookup (stacItemBuilding ops b).properties k
        = (jlookup b.properties k).or
            (jlookup (buildingBaseProps b (joinOperator ops b.operator_id)) k) := by
  refine ⟨rfl, rfl, ?_, ?_⟩
  · exact jlookup_jsonbConcat _ _ k
  · exact jlookup_jsonbConcat _ _ k

end UrbanLens
